import Mathlib

/-!
Shallow embedding of the dynamic-filter engine of this repository
(src/utils/filterUtils.ts, src/config/fieldDefinitions.ts, src/types.ts).

JavaScript runtime values are modelled by the inductive type JSValue below;
JavaScript numbers (IEEE doubles) are modelled by JSNum: NaN, the two
infinities, and finite values as rationals (exact for every double, and the
engine only compares numbers, never does arithmetic on them, so no rounding
behaviour is lost).  A JavaScript exception (TypeError from a property access
on null, or from calling a method that does not exist) is modelled by
returning none : Option Bool from an evaluator; some b is a normal boolean
return.  Objects and arrays compare by reference in JavaScript; in this
engine the two operands of a strict-equality test always come from different
provenances (one from the record, one from the filter condition), so
reference equality of two object operands is modelled as false.
The runtime's time zone is modelled as UTC, so Date.prototype.setHours sets
the time of day within the UTC day of the timestamp.
-/

/-- Model of a JavaScript number: NaN, the infinities, or a finite value. -/
inductive JSNum where
  | nan
  | posInf
  | negInf
  | fin (q : ℚ)
deriving DecidableEq

/-- Model of a JavaScript runtime value.  vNull models null, vUndef models
undefined; vObj is a plain object as an association list of own properties
(no duplicate keys in any value built by this development). -/
inductive JSValue where
  | vNull
  | vUndef
  | vStr (s : String)
  | vNum (n : JSNum)
  | vBool (b : Bool)
  | vArr (elems : List JSValue)
  | vObj (fields : List (String × JSValue))

open JSValue

/-- JavaScript truthiness (ToBoolean). -/
def truthy : JSValue → Bool
  | vNull => false
  | vUndef => false
  | vStr s => !(s == "")
  | vNum .nan => false
  | vNum (.fin q) => !(q == 0)
  | vNum _ => true
  | vBool b => b
  | vArr _ => true
  | vObj _ => true

/-- Strict equality of numbers: NaN is equal to nothing, including itself. -/
def jsNumEq : JSNum → JSNum → Bool
  | .nan, _ => false
  | _, .nan => false
  | .posInf, .posInf => true
  | .negInf, .negInf => true
  | .fin a, .fin b => a == b
  | _, _ => false

/-- Strict equality (the === operator).  Two object or array operands
compare by reference; in this engine they always have distinct provenances
(record vs filter condition), so that case is modelled as false. -/
def jsStrictEq : JSValue → JSValue → Bool
  | vNull, vNull => true
  | vUndef, vUndef => true
  | vStr a, vStr b => a == b
  | vNum a, vNum b => jsNumEq a b
  | vBool a, vBool b => a == b
  | _, _ => false

/-- SameValueZero, used by Array.prototype.includes: like strict equality
but NaN equals NaN. -/
def sameValueZero : JSValue → JSValue → Bool
  | vNum .nan, vNum .nan => true
  | a, b => jsStrictEq a b

/-- Numeric value of a digit list, most significant first. -/
def natOfDigits (ds : List Char) : ℕ :=
  ds.foldl (fun acc c => acc * 10 + (c.toNat - 48)) 0

/-- String.prototype.trim: strip leading and trailing whitespace. -/
def jsTrim (s : String) : String :=
  String.mk (((s.data.dropWhile Char.isWhitespace).reverse.dropWhile
    Char.isWhitespace).reverse)

/-- String.prototype.toLowerCase (the engine only ever lowercases ASCII
field data). -/
def jsToLower (s : String) : String :=
  String.mk (s.data.map Char.toLower)

/-- String.prototype.startsWith. -/
def jsStartsWith (s pre : String) : Bool :=
  pre.data.isPrefixOf s.data

/-- String.prototype.endsWith. -/
def jsEndsWith (s suf : String) : Bool :=
  suf.data.isSuffixOf s.data

/-- String.prototype.split with a dot separator, as used on field keys:
an empty string yields one empty segment, like in JavaScript. -/
def splitPathChars : List Char → List (List Char)
  | [] => [[]]
  | '.' :: rest => [] :: splitPathChars rest
  | c :: rest =>
    match splitPathChars rest with
    | [] => [[c]]
    | p :: ps => (c :: p) :: ps

/-- fieldKey.split on a dot, producing the path segments. -/
def splitPath (s : String) : List String :=
  (splitPathChars s.data).map String.mk

/-- Split a character list at the first dot, if any. -/
def splitDot : List Char → (List Char × Option (List Char))
  | [] => ([], none)
  | '.' :: rest => ([], some rest)
  | c :: rest =>
    let p := splitDot rest
    (c :: p.1, p.2)

/-- ToNumber on a string.  Models the decimal forms the engine can meet:
optional sign, digits with an optional fraction, and the Infinity literal;
a blank string is 0 and anything else is NaN.  (Hexadecimal and exponent
literals are not modelled; no value in this development uses them.) -/
def parseJSNum (s : String) : JSNum :=
  let t := jsTrim s
  if t == "" then .fin 0
  else
    let signedBody : Bool × List Char :=
      match t.data with
      | '-' :: rest => (true, rest)
      | '+' :: rest => (false, rest)
      | cs => (false, cs)
    let neg := signedBody.1
    let body := signedBody.2
    let applySign : ℚ → JSNum := fun q => .fin (if neg then -q else q)
    if body == "Infinity".data then (if neg then .negInf else .posInf)
    else
      match splitDot body with
      | (intPart, none) =>
        if !intPart.isEmpty && intPart.all Char.isDigit then
          applySign (natOfDigits intPart)
        else .nan
      | (intPart, some fracPart) =>
        if (!intPart.isEmpty || !fracPart.isEmpty)
            && intPart.all Char.isDigit && fracPart.all Char.isDigit then
          applySign ((natOfDigits intPart : ℚ)
            + (natOfDigits fracPart : ℚ) / (10 : ℚ) ^ fracPart.length)
        else .nan

/-- ToNumber coercion.  Plain objects and arrays coerce through ToPrimitive
(toString); that path is not exercised by any property this development
states, and is modelled as NaN. -/
def toNumber : JSValue → JSNum
  | vNull => .fin 0
  | vUndef => .nan
  | vBool b => .fin (if b then 1 else 0)
  | vNum n => n
  | vStr s => parseJSNum s
  | vArr _ => .nan
  | vObj _ => .nan

/-- Less-than on numbers; none when either operand is NaN (the comparison
result is undefined, which every relational operator turns into false). -/
def jsNumLtTest : JSNum → JSNum → Option Bool
  | .nan, _ => none
  | _, .nan => none
  | .posInf, _ => some false
  | _, .posInf => some true
  | .negInf, .negInf => some false
  | .negInf, _ => some true
  | _, .negInf => some false
  | .fin a, .fin b => some (decide (a < b))

/-- Non-strict less-or-equal on numbers: false when either operand is NaN. -/
def jsNumLeB (a b : JSNum) : Bool :=
  match jsNumLtTest b a with
  | none => false
  | some r => !r

/-- The abstract relational comparison: two strings compare
lexicographically, anything else is compared through ToNumber.  none means
the undefined result produced by a NaN operand. -/
def jsLtTest (a b : JSValue) : Option Bool :=
  match a, b with
  | vStr s, vStr t => some (decide (s < t))
  | _, _ => jsNumLtTest (toNumber a) (toNumber b)

/-- The < operator (undefined result becomes false). -/
def jsLtB (a b : JSValue) : Bool := (jsLtTest a b).getD false

/-- The > operator. -/
def jsGtB (a b : JSValue) : Bool := (jsLtTest b a).getD false

/-- The >= operator: the negation of <, except a NaN operand gives false. -/
def jsGeB (a b : JSValue) : Bool :=
  match jsLtTest a b with
  | none => false
  | some r => !r

/-- The <= operator: the negation of >, except a NaN operand gives false. -/
def jsLeB (a b : JSValue) : Bool :=
  match jsLtTest b a with
  | none => false
  | some r => !r

/-- Property read v[key] on a non-null value (null and undefined receivers
are handled at each use site, since reading a property of null throws).
Arrays and primitive strings expose only numeric indices and a length
property, none of which is a field key used by this engine; those reads
are modelled as undefined. -/
def jsGet (value : JSValue) (key : String) : JSValue :=
  match value with
  | vObj fields =>
    match fields.lookup key with
    | some v => v
    | none => vUndef
  | _ => vUndef

/-! ### Date model

new Date(s) on the date-only ISO form YYYY-MM-DD yields UTC midnight of
that civil day; every date value this repository stores or persists has
that form (the data source builds them with toISOString().split of the T).
Timestamps are milliseconds since the Unix epoch as integers; an invalid
date (whose time value is NaN) is modelled as none. -/

/-- Whether a civil year is a leap year. -/
def isLeapYear (y : Int) : Bool :=
  y % 4 == 0 && (y % 100 != 0 || y % 400 == 0)

/-- Number of days in a civil month. -/
def daysInMonth (y m : Int) : Int :=
  if m == 2 then (if isLeapYear y then 29 else 28)
  else if m == 4 || m == 6 || m == 9 || m == 11 then 30
  else 31

/-- Days from the Unix epoch to the civil date y-m-d (proleptic Gregorian),
the standard era-based civil-calendar conversion. -/
def daysFromCivil (y m d : Int) : Int :=
  let yAdj := if m ≤ 2 then y - 1 else y
  let era := Int.fdiv yAdj 400
  let yoe := yAdj - era * 400
  let mp := Int.fmod (m + 9) 12
  let doy := Int.fdiv (153 * mp + 2) 5 + d - 1
  let doe := yoe * 365 + Int.fdiv yoe 4 - Int.fdiv yoe 100 + doy
  era * 146097 + doe - 719468

/-- Numeric value of two decimal digit characters. -/
def twoDigits (a b : Char) : Int :=
  ((a.toNat - 48) * 10 + (b.toNat - 48) : Nat)

/-- Parse a date-only ISO string YYYY-MM-DD to its civil day number, or
none when the string does not have that shape or the fields are out of
range (new Date rejects e.g. month 13, as does the ES date-time format). -/
def parseDateOnly (s : String) : Option Int :=
  match s.data with
  | [y1, y2, y3, y4, h1, m1, m2, h2, d1, d2] =>
    if h1 == '-' && h2 == '-'
        && [y1, y2, y3, y4, m1, m2, d1, d2].all Char.isDigit then
      let y : Int := ((natOfDigits [y1, y2, y3, y4] : Nat) : Int)
      let m := twoDigits m1 m2
      let d := twoDigits d1 d2
      if 1 ≤ m && m ≤ 12 && 1 ≤ d && d ≤ daysInMonth y m then
        some (daysFromCivil y m d)
      else none
    else none
  | _ => none

/-- Milliseconds in one day. -/
def msPerDay : Int := 86400000

/-- new Date(v): the time value of the constructed Date, or none for an
Invalid Date.  A string argument is parsed (this model covers the
date-only ISO form, the only string form present in this repository's
data); a numeric argument is a millisecond timestamp (truncated); null
coerces to 0 and undefined to NaN; objects and arrays are modelled as
invalid. -/
def jsNewDate : JSValue → Option Int
  | vStr s => (parseDateOnly s).map (fun d => d * msPerDay)
  | vNum (.fin q) => some (q.num.tdiv (q.den : Int))
  | vNum _ => none
  | vBool b => some (if b then 1 else 0)
  | vNull => some 0
  | vUndef => none
  | vArr _ => none
  | vObj _ => none

/-- setHours(0,0,0,0) in a UTC locale: the start of the timestamp's day. -/
def startOfDayTs (t : Int) : Int := Int.fdiv t msPerDay * msPerDay

/-- setHours(23,59,59,999) in a UTC locale: the last millisecond of the
timestamp's day. -/
def endOfDayTs (t : Int) : Int := Int.fdiv t msPerDay * msPerDay + (msPerDay - 1)

/-! ### Field schema (src/types.ts, src/config/fieldDefinitions.ts) -/

/-- The closed set of field types (the FieldType union of src/types.ts). -/
inductive FieldType where
  | text
  | number
  | date
  | amount
  | singleSelect
  | multiSelect
  | boolean
deriving DecidableEq

/-- The operator names legal for each field type, from the per-type
operator unions of src/types.ts (TextOperator, NumberOperator, and so on).
Operators are carried as their literal string values. -/
def recognizedOperators : FieldType → List String
  | .text => ["equals", "contains", "startsWith", "endsWith", "doesNotContain"]
  | .number => ["equals", "greaterThan", "lessThan", "greaterThanOrEqual", "lessThanOrEqual"]
  | .date => ["between"]
  | .amount => ["between"]
  | .singleSelect => ["is", "isNot"]
  | .multiSelect => ["in", "notIn"]
  | .boolean => ["is"]

/-- FieldDefinition of src/types.ts.  The source field named type is
spelled ftype here (type is reserved in Lean); options and getValue are
the two optional members. -/
structure FieldDefinition where
  key : String
  label : String
  ftype : FieldType
  operators : List String
  options : Option (List String)
  getValue : Option (JSValue → JSValue)

/-- FilterCondition of src/types.ts; the operator travels as its string
value and the value as a dynamic JSValue, exactly as at runtime. -/
structure FilterCondition where
  id : String
  field : String
  operator : String
  value : JSValue

/-- getNestedValue of src/config/fieldDefinitions.ts: walk one path
segment at a time, short-circuiting to null when a step is null or
undefined (the loop body is value = value?.[key] followed by the
null/undefined early return). -/
def walkPath : JSValue → List String → JSValue
  | value, [] => value
  | value, key :: keys =>
    match jsGet value key with
    | vUndef => vNull
    | vNull => vNull
    | v => walkPath v keys

/-- getNestedValue(record, path) of src/config/fieldDefinitions.ts. -/
def getNestedValue (record : JSValue) (path : String) : JSValue :=
  walkPath record (splitPath path)

/-- Field definition for name (src/config/fieldDefinitions.ts).  Fields of
the structure in order: key, label, ftype, operators, options, getValue. -/
def nameFieldDef : FieldDefinition :=
  ⟨"name", "Name", .text,
   ["equals", "contains", "startsWith", "endsWith", "doesNotContain"], none, none⟩

/-- Field definition for email. -/
def emailFieldDef : FieldDefinition :=
  ⟨"email", "Email", .text,
   ["equals", "contains", "startsWith", "endsWith", "doesNotContain"], none, none⟩

/-- Field definition for department. -/
def departmentFieldDef : FieldDefinition :=
  ⟨"department", "Department", .singleSelect, ["is", "isNot"],
   some ["Engineering", "Marketing", "Sales", "HR", "Finance", "Operations",
         "Product", "Design"], none⟩

/-- Field definition for role. -/
def roleFieldDef : FieldDefinition :=
  ⟨"role", "Role", .singleSelect, ["is", "isNot"],
   some ["Senior Developer", "Junior Developer", "Product Manager", "Designer",
         "Marketing Manager", "Sales Representative", "HR Specialist",
         "Finance Analyst", "Operations Manager", "QA Engineer"], none⟩

/-- Field definition for projects. -/
def projectsFieldDef : FieldDefinition :=
  ⟨"projects", "Projects", .number,
   ["equals", "greaterThan", "lessThan", "greaterThanOrEqual", "lessThanOrEqual"],
   none, none⟩

/-- Field definition for performanceRating. -/
def performanceRatingFieldDef : FieldDefinition :=
  ⟨"performanceRating", "Performance Rating", .number,
   ["equals", "greaterThan", "lessThan", "greaterThanOrEqual", "lessThanOrEqual"],
   none, none⟩

/-- Field definition for salary. -/
def salaryFieldDef : FieldDefinition :=
  ⟨"salary", "Salary", .amount, ["between"], none, none⟩

/-- Field definition for joinDate. -/
def joinDateFieldDef : FieldDefinition :=
  ⟨"joinDate", "Join Date", .date, ["between"], none, none⟩

/-- Field definition for lastReview. -/
def lastReviewFieldDef : FieldDefinition :=
  ⟨"lastReview", "Last Review", .date, ["between"], none, none⟩

/-- Field definition for isActive. -/
def isActiveFieldDef : FieldDefinition :=
  ⟨"isActive", "Active Status", .boolean, ["is"], none, none⟩

/-- Field definition for skills. -/
def skillsFieldDef : FieldDefinition :=
  ⟨"skills", "Skills", .multiSelect, ["in", "notIn"],
   some ["React", "TypeScript", "Node.js", "GraphQL", "Python", "Java", "AWS",
         "Docker", "Kubernetes", "MongoDB", "PostgreSQL", "Redis", "Vue.js",
         "Angular", "Next.js"], none⟩

/-- Field definition for the nested address.city field, with its custom
value extractor. -/
def addressCityFieldDef : FieldDefinition :=
  ⟨"address.city", "City", .singleSelect, ["is", "isNot"],
   some ["San Francisco", "New York", "Los Angeles", "Chicago", "Seattle",
         "Austin", "Boston", "Denver"],
   some (fun record => getNestedValue record "address.city")⟩

/-- Field definition for the nested address.state field, with its custom
value extractor. -/
def addressStateFieldDef : FieldDefinition :=
  ⟨"address.state", "State", .singleSelect, ["is", "isNot"],
   some ["CA", "NY", "TX", "WA", "IL", "MA", "CO", "FL"],
   some (fun record => getNestedValue record "address.state")⟩

/-- The fieldDefinitions configuration object of
src/config/fieldDefinitions.ts, as an association list in source order. -/
def fieldDefinitions : List (String × FieldDefinition) :=
  [("name", nameFieldDef),
   ("email", emailFieldDef),
   ("department", departmentFieldDef),
   ("role", roleFieldDef),
   ("projects", projectsFieldDef),
   ("performanceRating", performanceRatingFieldDef),
   ("salary", salaryFieldDef),
   ("joinDate", joinDateFieldDef),
   ("lastReview", lastReviewFieldDef),
   ("isActive", isActiveFieldDef),
   ("skills", skillsFieldDef),
   ("address.city", addressCityFieldDef),
   ("address.state", addressStateFieldDef)]

/-- getFieldDefinition(key) of src/config/fieldDefinitions.ts. -/
def getFieldDefinition (key : String) : Option FieldDefinition :=
  fieldDefinitions.lookup key

/-! ### The filter engine (src/utils/filterUtils.ts) -/

/-- getFieldValue of src/utils/filterUtils.ts: use the definition's custom
extractor when present, otherwise split the field key on dots and walk the
record, returning null as soon as a step is null or undefined. -/
def getFieldValue (record : JSValue) (fieldKey : String) : JSValue :=
  match getFieldDefinition fieldKey with
  | some fieldDef =>
    match fieldDef.getValue with
    | some extractor => extractor record
    | none => walkPath record (splitPath fieldKey)
  | none => walkPath record (splitPath fieldKey)

/-- Substring test on character lists (the semantics of
String.prototype.includes). -/
def charsInclude (needle : List Char) : List Char → Bool
  | [] => needle.isEmpty
  | c :: rest => needle.isPrefixOf (c :: rest) || charsInclude needle rest

/-- String.prototype.includes. -/
def strIncludes (s sub : String) : Bool := charsInclude sub.data s.data

/-- applyTextFilter of src/utils/filterUtils.ts.  A falsy record value
returns false before anything else; then both operands are lowercased
(calling toLowerCase on a truthy non-string record value, or on a
non-string filter value, throws a TypeError, modelled as none) and the
operator switch runs, its default case returning false. -/
def applyTextFilter (recordValue : JSValue) (operator : String)
    (filterValue : JSValue) : Option Bool :=
  if truthy recordValue = false then some false
  else
    match recordValue, filterValue with
    | vStr r, vStr f =>
      let recordLower := jsToLower r
      let filterLower := jsToLower f
      some (match operator with
        | "equals" => recordLower == filterLower
        | "contains" => strIncludes recordLower filterLower
        | "startsWith" => jsStartsWith recordLower filterLower
        | "endsWith" => jsEndsWith recordLower filterLower
        | "doesNotContain" => !strIncludes recordLower filterLower
        | _ => false)
    | _, _ => none

/-- applyNumberFilter of src/utils/filterUtils.ts: null or undefined record
values return false, otherwise the operator switch compares with the
strict-equality and relational operators (which never throw), defaulting
to false. -/
def applyNumberFilter (recordValue : JSValue) (operator : String)
    (filterValue : JSValue) : Option Bool :=
  match recordValue with
  | vNull => some false
  | vUndef => some false
  | _ =>
    some (match operator with
      | "equals" => jsStrictEq recordValue filterValue
      | "greaterThan" => jsGtB recordValue filterValue
      | "lessThan" => jsLtB recordValue filterValue
      | "greaterThanOrEqual" => jsGeB recordValue filterValue
      | "lessThanOrEqual" => jsLeB recordValue filterValue
      | _ => false)

/-- applyDateFilter of src/utils/filterUtils.ts.  It takes no operator: a
falsy record value returns false, then the from and to properties of the
filter value are read (throwing, modelled as none, when the filter value is
null or undefined), three Dates are built, from is moved to the start of
its day and to to the end of its day, and the record timestamp is compared
inclusively; any Invalid Date makes both comparisons false. -/
def applyDateFilter (recordValue : JSValue) (filterValue : JSValue) : Option Bool :=
  if truthy recordValue = false then some false
  else
    match filterValue with
    | vNull => none
    | vUndef => none
    | _ =>
      let recordDate := jsNewDate recordValue
      let fromDate := (jsNewDate (jsGet filterValue "from")).map startOfDayTs
      let toDate := (jsNewDate (jsGet filterValue "to")).map endOfDayTs
      match recordDate, fromDate, toDate with
      | some r, some f, some t => some (decide (f ≤ r) && decide (r ≤ t))
      | _, _, _ => some false

/-- applyAmountFilter of src/utils/filterUtils.ts: null or undefined record
values return false; reading min of a null or undefined filter value
throws (none); otherwise the inclusive range test runs with the relational
operators. -/
def applyAmountFilter (recordValue : JSValue) (filterValue : JSValue) : Option Bool :=
  match recordValue with
  | vNull => some false
  | vUndef => some false
  | _ =>
    match filterValue with
    | vNull => none
    | vUndef => none
    | _ =>
      some (jsGeB recordValue (jsGet filterValue "min")
        && jsLeB recordValue (jsGet filterValue "max"))

/-- applySingleSelectFilter of src/utils/filterUtils.ts: falsy record
values return false, then the operator switch compares with strict
equality, defaulting to false.  It never throws. -/
def applySingleSelectFilter (recordValue : JSValue) (operator : String)
    (filterValue : JSValue) : Option Bool :=
  if truthy recordValue = false then some false
  else
    some (match operator with
      | "is" => jsStrictEq recordValue filterValue
      | "isNot" => !jsStrictEq recordValue filterValue
      | _ => false)

/-- applyMultiSelectFilter of src/utils/filterUtils.ts: a non-array record
value returns false; the in and notIn cases call some on the filter value
(throwing, modelled as none, when it is not an array) with an includes
membership test; the default case returns false without touching the
filter value. -/
def applyMultiSelectFilter (recordValue : JSValue) (operator : String)
    (filterValue : JSValue) : Option Bool :=
  match recordValue with
  | vArr rs =>
    match operator with
    | "in" =>
      match filterValue with
      | vArr fs => some (fs.any (fun v => rs.any (fun x => sameValueZero x v)))
      | _ => none
    | "notIn" =>
      match filterValue with
      | vArr fs => some (!fs.any (fun v => rs.any (fun x => sameValueZero x v)))
      | _ => none
    | _ => some false
  | _ => some false

/-- applyBooleanFilter of src/utils/filterUtils.ts: a bare strict-equality
test; it takes no operator and has no null check of its own. -/
def applyBooleanFilter (recordValue : JSValue) (filterValue : JSValue) : Option Bool :=
  some (jsStrictEq recordValue filterValue)

/-- applyFilterCondition of src/utils/filterUtils.ts: resolve the record
value and the field definition; a missing definition or a null/undefined
record value returns false; otherwise dispatch on the definition's type. -/
def applyFilterCondition (record : JSValue) (condition : FilterCondition) : Option Bool :=
  let recordValue := getFieldValue record condition.field
  match getFieldDefinition condition.field with
  | none => some false
  | some fieldDef =>
    match recordValue with
    | vNull => some false
    | vUndef => some false
    | _ =>
      match fieldDef.ftype with
      | .text => applyTextFilter recordValue condition.operator condition.value
      | .number => applyNumberFilter recordValue condition.operator condition.value
      | .date => applyDateFilter recordValue condition.value
      | .amount => applyAmountFilter recordValue condition.value
      | .singleSelect => applySingleSelectFilter recordValue condition.operator condition.value
      | .multiSelect => applyMultiSelectFilter recordValue condition.operator condition.value
      | .boolean => applyBooleanFilter recordValue condition.value

/-- The filters.every callback chain for one record: Array.prototype.every
evaluates the conditions left to right, stops at the first false, and lets
an exception (none) propagate. -/
def matchesAllConditions (record : JSValue) : List FilterCondition → Option Bool
  | [] => some true
  | c :: cs =>
    match applyFilterCondition record c with
    | none => none
    | some false => some false
    | some true => matchesAllConditions record cs

/-- The employees.filter traversal: records are tested in order, kept when
every condition holds, and an exception thrown while testing any record
aborts the whole call (none). -/
def filterRecordsLoop (filters : List FilterCondition) : List JSValue → Option (List JSValue)
  | [] => some []
  | r :: rs =>
    match matchesAllConditions r filters with
    | none => none
    | some true => (filterRecordsLoop filters rs).map (r :: ·)
    | some false => filterRecordsLoop filters rs

/-- filterEmployees of src/utils/filterUtils.ts: an empty filter list
returns the input list itself, otherwise the records are filtered by the
conjunction of the conditions. -/
def filterEmployees (employees : List JSValue) (filters : List FilterCondition) :
    Option (List JSValue) :=
  if filters.length == 0 then some employees
  else filterRecordsLoop filters employees

/-- Whether a JavaScript number is NaN (the isNaN test of the validator,
whose argument is already a number there). -/
def jsNumIsNaN : JSNum → Bool
  | .nan => true
  | _ => false

/-- validateFilterCondition of src/utils/filterUtils.ts: the field must
exist, the operator must be in the definition's operator list, and the
value must have the shape the field type requires (non-blank string,
non-NaN number, object with string from/to, object with numeric min/max
and min at most max, non-empty array, or boolean).  Arrays have typeof
object but expose no from/to/min/max properties, so they fail the date and
amount checks through the in-operator tests. -/
def validateFilterCondition (condition : FilterCondition) : Bool :=
  match getFieldDefinition condition.field with
  | none => false
  | some fieldDef =>
    if !(fieldDef.operators.contains condition.operator) then false
    else
      match fieldDef.ftype with
      | .text | .singleSelect =>
        match condition.value with
        | vStr s => decide (0 < (jsTrim s).length)
        | _ => false
      | .number =>
        match condition.value with
        | vNum n => !jsNumIsNaN n
        | _ => false
      | .date =>
        match condition.value with
        | vObj fields =>
          (match fields.lookup "from" with
           | some (vStr _) => true
           | _ => false)
          && (match fields.lookup "to" with
              | some (vStr _) => true
              | _ => false)
        | _ => false
      | .amount =>
        match condition.value with
        | vObj fields =>
          (match fields.lookup "min", fields.lookup "max" with
           | some (vNum mn), some (vNum mx) => jsNumLeB mn mx
           | _, _ => false)
        | _ => false
      | .multiSelect =>
        match condition.value with
        | vArr xs => decide (0 < xs.length)
        | _ => false
      | .boolean =>
        match condition.value with
        | vBool _ => true
        | _ => false

/-! ### Shape predicates

The shape a condition value must have for a field type (the shape the
validator accepts and the evaluators expect), and the shapes a stored
record value may have (the declared shape, or null/undefined for an
absent value). -/

/-- Whether a filter value has the shape expected for a field type: a
string for text and singleSelect, a number for number, an object with
string from and to members for date, an object with numeric min and max
members for amount, an array for multiSelect, a boolean for boolean. -/
def valueShaped : FieldType → JSValue → Bool
  | .text, vStr _ => true
  | .number, vNum _ => true
  | .date, vObj fields =>
    (match fields.lookup "from" with
     | some (vStr _) => true
     | _ => false)
    && (match fields.lookup "to" with
        | some (vStr _) => true
        | _ => false)
  | .amount, vObj fields =>
    (match fields.lookup "min", fields.lookup "max" with
     | some (vNum _), some (vNum _) => true
     | _, _ => false)
  | .singleSelect, vStr _ => true
  | .multiSelect, vArr _ => true
  | .boolean, vBool _ => true
  | _, _ => false

/-- Whether a stored record value has the declared shape for a field type,
or is null/undefined (an absent value). -/
def recordShapedOk : FieldType → JSValue → Bool
  | _, vNull => true
  | _, vUndef => true
  | .text, vStr _ => true
  | .number, vNum _ => true
  | .date, vStr _ => true
  | .amount, vNum _ => true
  | .singleSelect, vStr _ => true
  | .multiSelect, vArr _ => true
  | .boolean, vBool _ => true
  | _, _ => false

/-! ### Helper lemmas about the evaluators -/

/-- The text evaluator returns a boolean on string operands. -/
theorem applyTextFilter_total (r : String) (op : String) (f : String) :
    (applyTextFilter (vStr r) op (vStr f)).isSome = true := by
  unfold applyTextFilter
  split <;> simp

/-- The number evaluator never throws. -/
theorem applyNumberFilter_total (rv : JSValue) (op : String) (fv : JSValue) :
    (applyNumberFilter rv op fv).isSome = true := by
  unfold applyNumberFilter
  cases rv <;> simp

/-- The single-select evaluator never throws. -/
theorem applySingleSelectFilter_total (rv : JSValue) (op : String) (fv : JSValue) :
    (applySingleSelectFilter rv op fv).isSome = true := by
  unfold applySingleSelectFilter
  split <;> simp

/-- The date evaluator returns a boolean whenever the filter value is an
object. -/
theorem applyDateFilter_total (rv : JSValue) (fields : List (String × JSValue)) :
    (applyDateFilter rv (vObj fields)).isSome = true := by
  unfold applyDateFilter
  split
  · simp
  · split
    · simp_all
    · simp_all
    · dsimp only
      split <;> simp

/-- The amount evaluator returns a boolean whenever the filter value is an
object. -/
theorem applyAmountFilter_total (rv : JSValue) (fields : List (String × JSValue)) :
    (applyAmountFilter rv (vObj fields)).isSome = true := by
  unfold applyAmountFilter
  cases rv <;> simp

/-- The multi-select evaluator returns a boolean whenever the filter value
is an array. -/
theorem applyMultiSelectFilter_total (rv : JSValue) (op : String) (fs : List JSValue) :
    (applyMultiSelectFilter rv op (vArr fs)).isSome = true := by
  unfold applyMultiSelectFilter
  cases rv <;> simp
  split <;> simp

/-- The text evaluator's switch defaults to false on an operator outside
the text operator set (on string operands, which are lowercased before the
switch runs). -/
theorem applyTextFilter_unknown_op (r f : String) (op : String)
    (h : op ∉ recognizedOperators .text) :
    applyTextFilter (vStr r) op (vStr f) = some false := by
  unfold applyTextFilter
  split
  · rfl
  · simp only [Option.some.injEq]
    split <;> simp_all [recognizedOperators]

/-- The number evaluator's switch defaults to false on an operator outside
the number operator set. -/
theorem applyNumberFilter_unknown_op (rv fv : JSValue) (op : String)
    (h : op ∉ recognizedOperators .number) :
    applyNumberFilter rv op fv = some false := by
  unfold applyNumberFilter
  cases rv <;>
    first
    | rfl
    | (simp only [Option.some.injEq]
       split <;> simp_all [recognizedOperators])

/-- The single-select evaluator's switch defaults to false on an operator
outside the single-select operator set. -/
theorem applySingleSelectFilter_unknown_op (rv fv : JSValue) (op : String)
    (h : op ∉ recognizedOperators .singleSelect) :
    applySingleSelectFilter rv op fv = some false := by
  unfold applySingleSelectFilter
  split
  · rfl
  · simp only [Option.some.injEq]
    split <;> simp_all [recognizedOperators]

/-- The multi-select evaluator's switch defaults to false on an operator
outside the multi-select operator set (without touching the filter
value). -/
theorem applyMultiSelectFilter_unknown_op (rv fv : JSValue) (op : String)
    (h : op ∉ recognizedOperators .multiSelect) :
    applyMultiSelectFilter rv op fv = some false := by
  unfold applyMultiSelectFilter
  cases rv <;> try rfl
  split <;> simp_all [recognizedOperators]

/-! ### Claim theorems -/

/-- C3: filtering with an empty condition list returns exactly the input
record sequence, same elements in the same order. -/
theorem filterEmployees_empty_identity (employees : List JSValue) :
    filterEmployees employees [] = some employees := rfl

/-- C7: a record whose resolved value at the condition's field is null
(covering a missing field, a null produced by short-circuiting on a
missing intermediate path segment, and a null returned by a custom
accessor) never matches the condition, for every operator and filter
value. -/
theorem null_field_value_never_matches (record : JSValue) (condition : FilterCondition)
    (h : getFieldValue record condition.field = vNull) :
    applyFilterCondition record condition = some false := by
  unfold applyFilterCondition
  cases hdef : getFieldDefinition condition.field <;> simp [h]

/-- C7 witness: a record without the name field does not match a text
condition on name. -/
theorem null_field_value_never_matches_witness :
    applyFilterCondition (vObj []) ⟨"w7", "name", "equals", vStr "x"⟩ = some false :=
  null_field_value_never_matches (vObj []) ⟨"w7", "name", "equals", vStr "x"⟩ rfl

/-- C6: the single-select evaluator decides operator is by exact string
equality and isNot by exact string inequality on a non-empty record
value, and an empty or absent record value yields false under every
operator and filter value, including isNot. -/
theorem applySingleSelectFilter_spec :
    (∀ r f : String, r ≠ "" →
      applySingleSelectFilter (vStr r) "is" (vStr f) = some (decide (r = f)))
    ∧ (∀ r f : String, r ≠ "" →
      applySingleSelectFilter (vStr r) "isNot" (vStr f) = some (!decide (r = f)))
    ∧ (∀ (fv : JSValue) (op : String),
      applySingleSelectFilter (vStr "") op fv = some false
        ∧ applySingleSelectFilter vNull op fv = some false) := by
  refine ⟨?_, ?_, ?_⟩
  · intro r f hr
    unfold applySingleSelectFilter
    simp [truthy, hr, jsStrictEq]
    by_cases hrf : r = f <;> simp [hrf]
  · intro r f hr
    unfold applySingleSelectFilter
    simp [truthy, hr, jsStrictEq]
    by_cases hrf : r = f <;> simp [hrf]
  · intro fv op
    exact ⟨rfl, rfl⟩

/-- C6 witness: is on equal strings matches, isNot on an absent value
fails. -/
theorem applySingleSelectFilter_spec_witness :
    applySingleSelectFilter (vStr "Engineering") "is" (vStr "Engineering") = some true := by
  simpa using applySingleSelectFilter_spec.1 "Engineering" "Engineering" (by decide)

/-- C10: the validator checks only the shape of a select value, not
membership in the field's declared options: a single-select condition
whose value is a non-empty string outside the department options, and a
multi-select condition whose value is a non-empty array with a string
outside the skills options, are both accepted. -/
theorem validateFilterCondition_ignores_options :
    validateFilterCondition ⟨"c10a", "department", "is", vStr "Astronomy"⟩ = true
    ∧ getFieldDefinition "department" = some departmentFieldDef
    ∧ (departmentFieldDef.options.getD []).contains "Astronomy" = false
    ∧ validateFilterCondition ⟨"c10b", "skills", "in", vArr [vStr "Juggling"]⟩ = true
    ∧ getFieldDefinition "skills" = some skillsFieldDef
    ∧ (skillsFieldDef.options.getD []).contains "Juggling" = false :=
  ⟨rfl, rfl, rfl, rfl, rfl, rfl⟩

/-- C1 counterexample: a filter value of unexpected shape makes evaluation
throw instead of returning false: a null filter value reaching the text
evaluator with a truthy string record value calls toLowerCase on null
(TypeError, modelled by none), and the same happens through
applyFilterCondition. -/
theorem text_evaluator_throws_on_null_filter_value :
    applyTextFilter (vStr "Alice") "equals" vNull = none
    ∧ applyFilterCondition (vObj [("name", vStr "Alice")])
        ⟨"x1", "name", "equals", vNull⟩ = none :=
  ⟨rfl, rfl⟩

/-- C2 counterexample: the boolean evaluator never inspects the operator,
so a condition on a boolean field with the text operator contains (not a
boolean operator) still evaluates to true on a matching record rather
than false. -/
theorem boolean_evaluator_ignores_operator :
    ("contains" ∈ recognizedOperators .boolean → False)
    ∧ applyFilterCondition (vObj [("isActive", vBool true)])
        ⟨"x2", "isActive", "contains", vBool true⟩ = some true :=
  ⟨by decide, rfl⟩

/-- C4 counterexample: the validator only rules out NaN for number fields
(the isNaN test); an infinite numeric value on a number field with a
declared operator is accepted, although it is not a finite number. -/
theorem validateFilterCondition_accepts_infinity :
    validateFilterCondition ⟨"x4", "projects", "equals", vNum .posInf⟩ = true
    ∧ (∀ q : ℚ, (JSNum.posInf : JSNum) ≠ .fin q) :=
  ⟨rfl, fun _ h => JSNum.noConfusion h⟩

/-- C8 counterexample: condition order can change the result: with a
condition whose null filter value throws on the record and a condition
that already rejects the record, one order throws while the other returns
an empty result. -/
theorem filterEmployees_order_sensitive :
    ¬ (filterEmployees [vObj [("name", vStr "Alice")]]
        [⟨"o1", "name", "equals", vNull⟩, ⟨"o2", "name", "equals", vStr "zzz"⟩]
      = filterEmployees [vObj [("name", vStr "Alice")]]
        [⟨"o2", "name", "equals", vStr "zzz"⟩, ⟨"o1", "name", "equals", vNull⟩]) := by
  have h1 : filterEmployees [vObj [("name", vStr "Alice")]]
      [⟨"o1", "name", "equals", vNull⟩, ⟨"o2", "name", "equals", vStr "zzz"⟩] = none := rfl
  have h2 : filterEmployees [vObj [("name", vStr "Alice")]]
      [⟨"o2", "name", "equals", vStr "zzz"⟩, ⟨"o1", "name", "equals", vNull⟩] = some [] := rfl
  rw [h1, h2]
  exact fun h => Option.noConfusion h

/-- C5: over the date-only strings this repository stores, the date
evaluator normalizes the from bound to the start of its day and the to
bound to the last millisecond of its day before comparing, so the match
is exactly inclusive day containment: a record day equal to the from day
or to the to day (within the range) matches on both ends. -/
theorem applyDateFilter_day_inclusive (r f t : String) (dr df dt : Int)
    (hr : parseDateOnly r = some dr) (hf : parseDateOnly f = some df)
    (ht : parseDateOnly t = some dt) :
    applyDateFilter (vStr r) (vObj [("from", vStr f), ("to", vStr t)])
      = some (decide (df ≤ dr) && decide (dr ≤ dt)) := by
  have hrne : r ≠ "" := by
    intro h
    subst h
    exact Option.noConfusion hr
  unfold applyDateFilter
  rw [if_neg (by simp [truthy, hrne])]
  have hfrom : jsGet (vObj [("from", vStr f), ("to", vStr t)]) "from" = vStr f := rfl
  have hto : jsGet (vObj [("from", vStr f), ("to", vStr t)]) "to" = vStr t := rfl
  dsimp only
  rw [hfrom, hto]
  simp only [jsNewDate, hr, hf, ht, Option.map_some']
  have h1 : startOfDayTs (df * msPerDay) = df * msPerDay := by
    unfold startOfDayTs
    rw [Int.mul_fdiv_cancel df (by norm_num [msPerDay])]
  have h2 : endOfDayTs (dt * msPerDay) = dt * msPerDay + (msPerDay - 1) := by
    unfold endOfDayTs
    rw [Int.mul_fdiv_cancel dt (by norm_num [msPerDay])]
  rw [h1, h2]
  have e1 : (df * msPerDay ≤ dr * msPerDay) ↔ (df ≤ dr) := by
    unfold msPerDay
    omega
  have e2 : (dr * msPerDay ≤ dt * msPerDay + (msPerDay - 1)) ↔ (dr ≤ dt) := by
    unfold msPerDay
    omega
  simp only [e1, e2]

/-- C5 witness: a record date of exactly 2024-03-15 matches the range
from 2024-03-15 to 2024-03-15. -/
theorem applyDateFilter_day_inclusive_witness :
    applyDateFilter (vStr "2024-03-15")
      (vObj [("from", vStr "2024-03-15"), ("to", vStr "2024-03-15")]) = some true := by
  simpa using applyDateFilter_day_inclusive "2024-03-15" "2024-03-15" "2024-03-15"
    19797 19797 19797 (by decide) (by decide) (by decide)

/-- C4 (amended): for a condition on a number-typed field with an existing
definition and a declared operator, the validator accepts exactly the
numeric values that are not NaN — infinite values are accepted, every
non-numeric or NaN value is rejected. -/
theorem validateFilterCondition_number_not_nan (condition : FilterCondition)
    (fieldDef : FieldDefinition)
    (hdef : getFieldDefinition condition.field = some fieldDef)
    (hft : fieldDef.ftype = .number)
    (hop : fieldDef.operators.contains condition.operator = true) :
    validateFilterCondition condition = true
      ↔ ∃ n : JSNum, condition.value = vNum n ∧ n ≠ .nan := by
  unfold validateFilterCondition
  rw [hdef]
  dsimp only
  rw [hop, hft]
  simp only [Bool.not_true, Bool.false_eq_true, if_false]
  cases hv : condition.value <;> simp [jsNumIsNaN]
  rename_i n
  cases n <;> simp

/-- C4 witness: a finite numeric value on the projects field with a
declared operator is accepted. -/
theorem validateFilterCondition_number_not_nan_witness :
    validateFilterCondition ⟨"w4", "projects", "equals", vNum (.fin 3)⟩ = true :=
  (validateFilterCondition_number_not_nan ⟨"w4", "projects", "equals", vNum (.fin 3)⟩
      projectsFieldDef rfl rfl rfl).mpr ⟨.fin 3, rfl, fun h => JSNum.noConfusion h⟩

/-- C1 (amended): when the filter value has the shape expected for the
field's declared type and the stored record value has the declared shape
(or is null/undefined), evaluating the condition is total: it returns a
boolean and never throws; a filter or record value of unexpected shape
can instead raise a TypeError rather than returning false. -/
theorem applyFilterCondition_total_of_shaped (record : JSValue)
    (condition : FilterCondition) (fieldDef : FieldDefinition)
    (hdef : getFieldDefinition condition.field = some fieldDef)
    (hval : valueShaped fieldDef.ftype condition.value = true)
    (hrec : recordShapedOk fieldDef.ftype (getFieldValue record condition.field) = true) :
    (applyFilterCondition record condition).isSome = true := by
  unfold applyFilterCondition
  rw [hdef]
  dsimp only
  cases hrv : getFieldValue record condition.field <;> rw [hrv] at hrec <;> try simp
  all_goals
    cases hft : fieldDef.ftype <;> rw [hft] at hval hrec <;>
      cases hv : condition.value <;>
        simp_all [valueShaped, recordShapedOk, applyBooleanFilter,
          applyTextFilter_total, applyNumberFilter_total,
          applySingleSelectFilter_total, applyDateFilter_total,
          applyAmountFilter_total, applyMultiSelectFilter_total]

/-- C1 witness: a well-shaped text condition on a string field evaluates
to a boolean. -/
theorem applyFilterCondition_total_of_shaped_witness :
    (applyFilterCondition (vObj [("name", vStr "Alice")])
      ⟨"w1", "name", "contains", vStr "li"⟩).isSome = true :=
  applyFilterCondition_total_of_shaped (vObj [("name", vStr "Alice")])
    ⟨"w1", "name", "contains", vStr "li"⟩ nameFieldDef rfl rfl rfl

/-- C2 (amended): on well-shaped values, an operator outside the set
recognized for the field's type makes the text, number, single-select and
multi-select evaluators return false; but the date, amount and boolean
evaluators never inspect the operator at all, so for those types the
condition evaluates identically under every operator string (their single
recognized operator is enforced only by the validator, not at
evaluation). -/
theorem applyFilterCondition_unknown_operator (record : JSValue)
    (condition : FilterCondition) (fieldDef : FieldDefinition)
    (hdef : getFieldDefinition condition.field = some fieldDef)
    (hval : valueShaped fieldDef.ftype condition.value = true)
    (hrec : recordShapedOk fieldDef.ftype (getFieldValue record condition.field) = true)
    (hop : condition.operator ∉ recognizedOperators fieldDef.ftype) :
    (fieldDef.ftype = .text ∨ fieldDef.ftype = .number
        ∨ fieldDef.ftype = .singleSelect ∨ fieldDef.ftype = .multiSelect →
      applyFilterCondition record condition = some false)
    ∧ (fieldDef.ftype = .date ∨ fieldDef.ftype = .amount ∨ fieldDef.ftype = .boolean →
      ∀ op2 : String,
        applyFilterCondition record ⟨condition.id, condition.field, op2, condition.value⟩
          = applyFilterCondition record condition) := by
  constructor
  · intro hty
    unfold applyFilterCondition
    rw [hdef]
    dsimp only
    cases hrv : getFieldValue record condition.field <;> rw [hrv] at hrec <;> try rfl
    all_goals
      rcases hty with hft | hft | hft | hft <;>
        rw [hft] at hval hrec hop <;> rw [hft] <;>
        try (cases hv : condition.value <;>
          simp_all [valueShaped, recordShapedOk,
            applyTextFilter_unknown_op, applyNumberFilter_unknown_op,
            applySingleSelectFilter_unknown_op, applyMultiSelectFilter_unknown_op])
  · rintro (hft | hft | hft) op2 <;>
      · unfold applyFilterCondition
        dsimp only
        rw [hdef]
        dsimp only
        rw [hft]

/-- C2 witness: an unrecognized operator on a text field evaluates to
false. -/
theorem applyFilterCondition_unknown_operator_witness :
    applyFilterCondition (vObj [("name", vStr "Alice")])
      ⟨"w2", "name", "between", vStr "Ali"⟩ = some false :=
  (applyFilterCondition_unknown_operator (vObj [("name", vStr "Alice")])
      ⟨"w2", "name", "between", vStr "Ali"⟩ nameFieldDef rfl rfl rfl
      (by decide)).1 (Or.inl rfl)

/-- Two conditions that both evaluate to a boolean on a record can be
tested in either order: the conjunction short-circuits but commutes. -/
theorem matchesAllConditions_pair_comm (e : JSValue) (c1 c2 : FilterCondition)
    (h1 : (applyFilterCondition e c1).isSome = true)
    (h2 : (applyFilterCondition e c2).isSome = true) :
    matchesAllConditions e [c1, c2] = matchesAllConditions e [c2, c1] := by
  obtain ⟨b1, hb1⟩ := Option.isSome_iff_exists.mp h1
  obtain ⟨b2, hb2⟩ := Option.isSome_iff_exists.mp h2
  simp only [matchesAllConditions, hb1, hb2]
  cases b1 <;> cases b2 <;> simp

/-- The record traversal gives the same result for a two-condition filter
in either condition order, provided no record makes either condition
throw. -/
theorem filterRecordsLoop_pair_comm (c1 c2 : FilterCondition) (es : List JSValue)
    (h : ∀ e ∈ es, (applyFilterCondition e c1).isSome = true
        ∧ (applyFilterCondition e c2).isSome = true) :
    filterRecordsLoop [c1, c2] es = filterRecordsLoop [c2, c1] es := by
  induction es with
  | nil => rfl
  | cons e es ih =>
    have he := h e (by simp)
    have hes : ∀ x ∈ es, (applyFilterCondition x c1).isSome = true
        ∧ (applyFilterCondition x c2).isSome = true :=
      fun x hx => h x (by simp [hx])
    rw [filterRecordsLoop, filterRecordsLoop,
      matchesAllConditions_pair_comm e c1 c2 he.1 he.2, ih hes]

/-- C8 (amended): for conditions c1 and c2 whose evaluation returns a
boolean (does not throw) on every record of the input, filtering by
[c1, c2] and by [c2, c1] give the same result; without that proviso a
throwing condition can make the two orders differ. -/
theorem filterEmployees_pair_comm (employees : List JSValue) (c1 c2 : FilterCondition)
    (h : ∀ e ∈ employees, (applyFilterCondition e c1).isSome = true
        ∧ (applyFilterCondition e c2).isSome = true) :
    filterEmployees employees [c1, c2] = filterEmployees employees [c2, c1] := by
  show filterRecordsLoop [c1, c2] employees = filterRecordsLoop [c2, c1] employees
  exact filterRecordsLoop_pair_comm c1 c2 employees h

/-- C8 witness: two well-shaped text conditions filter the same in either
order. -/
theorem filterEmployees_pair_comm_witness :
    filterEmployees [vObj [("name", vStr "Alice")]]
      [⟨"wa", "name", "equals", vStr "alice"⟩, ⟨"wb", "name", "contains", vStr "x"⟩]
    = filterEmployees [vObj [("name", vStr "Alice")]]
      [⟨"wb", "name", "contains", vStr "x"⟩, ⟨"wa", "name", "equals", vStr "alice"⟩] :=
  filterEmployees_pair_comm [vObj [("name", vStr "Alice")]]
    ⟨"wa", "name", "equals", vStr "alice"⟩ ⟨"wb", "name", "contains", vStr "x"⟩
    (by
      intro e he
      simp only [List.mem_singleton] at he
      subst he
      exact ⟨rfl, rfl⟩)

/-- A list that comes out of the record traversal passes the same
traversal unchanged: every surviving record still satisfies every
condition, and no condition throws on it. -/
theorem filterRecordsLoop_idem (filters : List FilterCondition) (es es' : List JSValue)
    (h : filterRecordsLoop filters es = some es') :
    filterRecordsLoop filters es' = some es' := by
  induction es generalizing es' with
  | nil =>
    rw [filterRecordsLoop] at h
    injection h with h'
    subst h'
    rfl
  | cons e es ih =>
    rw [filterRecordsLoop] at h
    cases hm : matchesAllConditions e filters with
    | none =>
      rw [hm] at h
      exact Option.noConfusion h
    | some b =>
      rw [hm] at h
      cases b with
      | false => exact ih es' h
      | true =>
        cases hrec : filterRecordsLoop filters es with
        | none =>
          rw [hrec] at h
          simp at h
        | some es0 =>
          rw [hrec] at h
          simp only [Option.map_some'] at h
          injection h with h'
          subst h'
          rw [filterRecordsLoop, hm, ih es0 hrec]
          rfl

/-- C9: applying the same condition list twice filters exactly once: the
records surviving one pass all survive a second pass (and a throwing pass
composed with itself still throws, so the composition is the single
pass). -/
theorem filterEmployees_idempotent (employees : List JSValue)
    (filters : List FilterCondition) :
    (filterEmployees employees filters).bind (fun es => filterEmployees es filters)
      = filterEmployees employees filters := by
  unfold filterEmployees
  cases hf : (filters.length == 0) with
  | true => simp [hf]
  | false =>
    simp only [hf, Bool.false_eq_true, if_false]
    cases hrec : filterRecordsLoop filters employees with
    | none => simp
    | some es' =>
      simp only [Option.some_bind, hf, Bool.false_eq_true, if_false]
      exact filterRecordsLoop_idem filters employees es' hrec
